import Mathlib

/-!
Shallow embedding of the credential-acquisition and request-forwarding core of
`src/server.js` (StockAI backend): the module-level credential state
(`_crumb`, `_cookies`, `_crumbTime`), the `getCrumb` acquisition function with
its TTL-based freshness gate, and the `yfRequest` forwarder with its single
retry on HTTP 401/403.

Network effects are modelled by passing in the outcome of each upstream
interaction (`AcqOutcome` for the two-step acquisition, `ReqOutcome` for a
data request) and recording, in the result, the network calls the code would
have issued.  JavaScript truthiness of the `_crumb` string is modelled
faithfully: `null` and the empty string are falsy, every other string truthy.
-/

/-- `CRUMB_TTL = 60 * 60 * 1000` (one hour, in milliseconds), from server.js line 34. -/
def CRUMB_TTL : Nat := 60 * 60 * 1000

/-- The shared mutable credential state of server.js: `_crumb` (line 31,
initially `null`, hence `Option`), `_crumbTime` (line 33) and `_cookies`
(line 32, modelled as a string, empty before first acquisition). -/
structure CredState where
  crumb : Option String
  crumbTime : Nat
  cookies : String
deriving Repr, DecidableEq

/-- JavaScript truthiness of the nullable string `_crumb`: `null` and `""` are
falsy, every other string is truthy. -/
def jsTruthy : Option String → Bool
  | none => false
  | some s => !s.isEmpty

/-- `c.split(';')[0]` of server.js line 57: the part of a Set-Cookie header
before the first `;` (the whole string when there is none). -/
def cookiePart (c : String) : String :=
  String.mk (c.data.takeWhile (fun ch => ch ≠ ';'))

/-- `rawCookies.map(c => c.split(';')[0]).join('; ')` of server.js line 57. -/
def joinCookies (raw : List String) : String :=
  String.intercalate "; " (raw.map cookiePart)

/-- Outcome of one two-step acquisition cycle against the upstream provider:
the landing-page GET fails; or it succeeds (yielding the Set-Cookie headers)
and the token GET fails; or both succeed (yielding the headers and the raw
token body). -/
inductive AcqOutcome where
  | step1Fail : AcqOutcome
  | step2Fail : List String → AcqOutcome
  | success : List String → String → AcqOutcome
deriving Repr, DecidableEq

/-- The two network calls `getCrumb` can issue: the landing-page GET of
server.js line 44 and the token-endpoint GET of line 60. -/
inductive AcqCall where
  | cookieFetch : AcqCall
  | tokenFetch : AcqCall
deriving Repr, DecidableEq

deriving instance DecidableEq for Except

/-- Result of one `getCrumb` call: the returned `{crumb, cookies}` pair or a
thrown error, the credential state after the call, and the list of network
calls issued, in order. -/
structure AcqResult where
  result : Except Unit (String × String)
  state : CredState
  calls : List AcqCall
deriving Repr, DecidableEq

/-- The acquisition path of `getCrumb` (server.js lines 44–74), taken when the
freshness gate fails.  On a step-1 failure the state is untouched; after a
successful step 1 the cookies are stored (line 57) before step 2 runs, so a
step-2 failure leaves the new cookies behind; on success `_crumb`,
`_crumbTime` and `_cookies` are all set and the fresh pair returned. -/
def doAcquire (now : Nat) (out : AcqOutcome) (st : CredState) : AcqResult :=
  match out with
  | .step1Fail => ⟨.error (), st, [.cookieFetch]⟩
  | .step2Fail raw =>
      ⟨.error (), { st with cookies := joinCookies raw }, [.cookieFetch, .tokenFetch]⟩
  | .success raw body =>
      let ck := joinCookies raw
      ⟨.ok (body, ck), ⟨some body, now, ck⟩, [.cookieFetch, .tokenFetch]⟩

/-- The freshness gate `_crumb && Date.now() - _crumbTime < CRUMB_TTL` of
server.js line 39 (truncated subtraction matches: a clock that went backwards
yields a JavaScript negative difference, which is `< CRUMB_TTL`, and a Lean
`0`, likewise). -/
def isFresh (now : Nat) (st : CredState) : Bool :=
  jsTruthy st.crumb && decide (now - st.crumbTime < CRUMB_TTL)

/-- `getCrumb` of server.js lines 38–75: return the cached pair with no
network activity when fresh, otherwise run the two-step acquisition. -/
def getCrumb (now : Nat) (out : AcqOutcome) (st : CredState) : AcqResult :=
  if isFresh now st then ⟨.ok (st.crumb.getD "", st.cookies), st, []⟩
  else doAcquire now out st

/-- `_crumb = null` of server.js line 94: clear the token only. -/
def invalidate (st : CredState) : CredState := { st with crumb := none }

/-- Hexadecimal digit (uppercase), for percent-encoding. -/
def hexDigit (n : Nat) : Char :=
  if n < 10 then Char.ofNat (48 + n) else Char.ofNat (55 + n)

/-- Percent-encoding `%XY` of one byte. -/
def percentByte (b : Nat) : String :=
  String.mk [Char.ofNat 37, hexDigit (b / 16 % 16), hexDigit (b % 16)]

/-- UTF-8 bytes of a Unicode code point. -/
def utf8Bytes (n : Nat) : List Nat :=
  if n < 128 then [n]
  else if n < 2048 then [192 + n / 64, 128 + n % 64]
  else if n < 65536 then [224 + n / 4096, 128 + n / 64 % 64, 128 + n % 64]
  else [240 + n / 262144, 128 + n / 4096 % 64, 128 + n / 64 % 64, 128 + n % 64]

/-- The characters JavaScript `encodeURIComponent` leaves unescaped:
alphanumerics and `- _ . ! ~ * ( )` and the apostrophe (code 39). -/
def isURIUnescaped (c : Char) : Bool :=
  c.isAlphanum || c = '-' || c = '_' || c = '.' || c = '!' || c = '~' ||
    c = '*' || c = Char.ofNat 39 || c = '(' || c = ')'

/-- JavaScript `encodeURIComponent`: unescaped characters pass through,
everything else becomes the percent-encoding of its UTF-8 bytes. -/
def encodeURIComponent (s : String) : String :=
  String.join (s.data.map fun c =>
    if isURIUnescaped c then String.singleton c
    else String.join ((utf8Bytes c.toNat).map percentByte))

/-- `url.includes('?') ? '&' : '?'` of server.js line 80 (membership of the
one-character needle among the URL's characters). -/
def sepFor (url : String) : String :=
  if url.data.contains '?' then "&" else "?"

/-- The URL built at server.js lines 81 and 96:
`${url}${sep}crumb=${encodeURIComponent(crumb)}`. -/
def buildUrl (url sep crumb : String) : String :=
  url ++ sep ++ "crumb=" ++ encodeURIComponent crumb

/-- Outcome of one upstream data request: a 2xx success with a body, a
rejection with an HTTP status (axios populates `err.response.status`), or a
network/timeout error with no HTTP response. -/
inductive ReqOutcome where
  | success : String → ReqOutcome
  | httpError : Nat → ReqOutcome
  | netError : ReqOutcome
deriving Repr, DecidableEq

/-- `err.response?.status === 401 || err.response?.status === 403` of
server.js line 93. -/
def isAuthStatus : ReqOutcome → Bool
  | .httpError s => s = 401 || s = 403
  | _ => false

/-- Errors surfaced by `yfRequest`: a failure inside `getCrumb`
(acquisition), or the error thrown by a failed upstream data request,
propagated unchanged. -/
inductive YfError where
  | acquisition : YfError
  | upstream : ReqOutcome → YfError
deriving Repr, DecidableEq

/-- Environment of one `yfRequest` call: the clock reading and acquisition
outcome for each of the (at most two) `getCrumb` calls, and the outcome of
each of the (at most two) upstream data requests. -/
structure YfEnv where
  now1 : Nat
  acq1 : AcqOutcome
  req1 : ReqOutcome
  now2 : Nat
  acq2 : AcqOutcome
  req2 : ReqOutcome
deriving Repr, DecidableEq

/-- Result of one `yfRequest` call: the returned body or propagated error,
the credential state after the call, and the upstream data-request URLs
issued, in order. -/
structure YfResult where
  result : Except YfError String
  state : CredState
  dataRequests : List String
deriving Repr, DecidableEq

/-- `yfRequest` of server.js lines 78–107: ensure credentials, build the URL
with the crumb appended, issue the GET; on 401/403 clear `_crumb`, re-run
`getCrumb`, rebuild the URL with the new crumb (same separator) and retry
exactly once, returning the retry's outcome; any other error propagates
unchanged. -/
def yfRequest (env : YfEnv) (url : String) (st : CredState) : YfResult :=
  let a1 := getCrumb env.now1 env.acq1 st
  match a1.result with
  | .error _ => ⟨.error .acquisition, a1.state, []⟩
  | .ok (crumb, _cookies) =>
    let sep := sepFor url
    let u1 := buildUrl url sep crumb
    match env.req1 with
    | .success body => ⟨.ok body, a1.state, [u1]⟩
    | r1 =>
      if isAuthStatus r1 then
        let a2 := getCrumb env.now2 env.acq2 (invalidate a1.state)
        match a2.result with
        | .error _ => ⟨.error .acquisition, a2.state, [u1]⟩
        | .ok (c2, _k2) =>
          let u2 := buildUrl url sep c2
          match env.req2 with
          | .success b2 => ⟨.ok b2, a2.state, [u1, u2]⟩
          | r2 => ⟨.error (.upstream r2), a2.state, [u1, u2]⟩
      else ⟨.error (.upstream r1), a1.state, [u1]⟩

/-!
Cycle-tagged instrumentation for the pairing invariant: each acquisition
cycle gets a fresh id, and the state records which cycle last wrote the token
and which last wrote the cookies.  Stripping the tags recovers `CredState`,
and the tagged step mirrors `getCrumb` exactly.
-/

/-- `CredState` instrumented with acquisition-cycle ids: `crumbCycle` is the
cycle that last wrote `crumb`/`crumbTime`, `cookieCycle` the cycle that last
wrote `cookies`, and `nextCycle` the id the next acquisition will use. -/
structure TState where
  crumb : Option String
  crumbTime : Nat
  cookies : String
  crumbCycle : Nat
  cookieCycle : Nat
  nextCycle : Nat
deriving Repr, DecidableEq

/-- Forget the cycle tags. -/
def stripT (ts : TState) : CredState := ⟨ts.crumb, ts.crumbTime, ts.cookies⟩

/-- Cycle-tagged `getCrumb`: same control flow as `getCrumb`, returning the
cycle ids of the token and of the cookies of the returned pair.  A fresh
cached state is returned as is; an acquisition consumes cycle id `nextCycle`
and tags exactly the fields it writes. -/
def getCrumbT (now : Nat) (out : AcqOutcome) (ts : TState) :
    Except Unit (Nat × Nat) × TState :=
  if isFresh now (stripT ts) then (.ok (ts.crumbCycle, ts.cookieCycle), ts)
  else
    match out with
    | .step1Fail => (.error (), { ts with nextCycle := ts.nextCycle + 1 })
    | .step2Fail raw =>
        (.error (), { ts with cookies := joinCookies raw,
                              cookieCycle := ts.nextCycle,
                              nextCycle := ts.nextCycle + 1 })
    | .success raw body =>
        (.ok (ts.nextCycle, ts.nextCycle),
         ⟨some body, now, joinCookies raw, ts.nextCycle, ts.nextCycle,
          ts.nextCycle + 1⟩)

/-- `_crumb = null` on the tagged state. -/
def invalT (ts : TState) : TState := { ts with crumb := none }

/-- One sequential operation on the shared credential state: an
`ensureCredentials` (`getCrumb`) call at a given clock reading with a given
acquisition outcome, or an `invalidate`. -/
inductive Op where
  | ensure : Nat → AcqOutcome → Op
  | inval : Op
deriving Repr, DecidableEq

/-- Run a sequential trace of operations, collecting the result of every
`ensure` call (the cycle tags of the returned pair, or the error). -/
def runTrace : List Op → TState → List (Except Unit (Nat × Nat)) × TState
  | [], ts => ([], ts)
  | Op.ensure now out :: rest, ts =>
      let r := getCrumbT now out ts
      let tl := runTrace rest r.2
      (r.1 :: tl.1, tl.2)
  | Op.inval :: rest, ts => runTrace rest (invalT ts)

/-- The clock readings of the `ensure` operations in a trace are
non-decreasing, starting from lower bound `t`. -/
def timesMono : Nat → List Op → Prop
  | _, [] => True
  | t, Op.ensure now _ :: rest => t ≤ now ∧ timesMono now rest
  | t, Op.inval :: rest => timesMono t rest

/-- Pairing invariant on a tagged state at current time `t`: whenever the
stored token is truthy but its cycle differs from the cookies' cycle, the
token is already expired (and, time being monotone, stays so), so the
freshness gate can never hand the mixed pair out. -/
def InvT (t : Nat) (ts : TState) : Prop :=
  jsTruthy ts.crumb = true → ts.crumbCycle ≠ ts.cookieCycle →
    CRUMB_TTL ≤ t - ts.crumbTime

/-- The initial tagged state: no token, epoch time, empty cookie jar. -/
def initT : TState := ⟨none, 0, "", 0, 0, 0⟩

/-- Concrete environment for the auth-retry scenario: the first acquisition
succeeds with token `"t1"`, the first request is rejected with HTTP 401,
re-acquisition succeeds with token `"t2"`, and the retry succeeds. -/
def wEnvRetry : YfEnv :=
  ⟨0, AcqOutcome.success ["A=1"] "t1", ReqOutcome.httpError 401,
   1, AcqOutcome.success ["B=2"] "t2", ReqOutcome.success "ok"⟩

/-- Concrete environment for the non-auth-failure scenario: the token is
served from cache (the acquisition outcomes are irrelevant) and the first
request fails with HTTP 500. -/
def wEnv500 : YfEnv :=
  ⟨0, AcqOutcome.step1Fail, ReqOutcome.httpError 500,
   0, AcqOutcome.step1Fail, ReqOutcome.netError⟩

/-- Concrete environment for the percent-encoding scenario: cached token,
HTTP 403 on the first request, re-acquisition yields the token `"a+b"`, and
the retry succeeds. -/
def wEnvEnc : YfEnv :=
  ⟨0, AcqOutcome.step1Fail, ReqOutcome.httpError 403,
   1, AcqOutcome.success ["B=2"] "a+b", ReqOutcome.success "ok"⟩

/-!
Theorems for the claims, in claim order.
-/

/-- Claim C1, counterexample: `getCrumb` is not atomic on failure.  From the
state `⟨none, 0, "OLD"⟩`, an acquisition whose second step fails propagates
the error but leaves the cookie header overwritten with the landing page's
cookies, so the CredState is not "exactly the same as before the call". -/
theorem getCrumb_atomicity_cex :
    (getCrumb 0 (AcqOutcome.step2Fail ["B=2"]) ⟨none, 0, "OLD"⟩).result = .error () ∧
    (getCrumb 0 (AcqOutcome.step2Fail ["B=2"]) ⟨none, 0, "OLD"⟩).state ≠
      (⟨none, 0, "OLD"⟩ : CredState) := by
  constructor
  · rfl
  · decide

/-- Claim C1, amended: when `getCrumb` attempts acquisition, a step-1 failure
propagates the error with the CredState fully unchanged, while a step-2
failure propagates the error with `token` and `acquiredAt` unchanged but with
`cookieHeader` already overwritten by the landing page's cookies. -/
theorem getCrumb_failure_effects (now : Nat) (st : CredState) (raw : List String)
    (h : isFresh now st = false) :
    getCrumb now AcqOutcome.step1Fail st =
      ⟨.error (), st, [AcqCall.cookieFetch]⟩ ∧
    getCrumb now (AcqOutcome.step2Fail raw) st =
      ⟨.error (), { st with cookies := joinCookies raw },
       [AcqCall.cookieFetch, AcqCall.tokenFetch]⟩ := by
  constructor <;> simp [getCrumb, h, doAcquire]

/-- Witness for `getCrumb_failure_effects` at `now = 0`, `st = ⟨none, 0, "OLD"⟩`,
`raw = ["B=2"]`. -/
theorem getCrumb_failure_effects_witness :
    getCrumb 0 AcqOutcome.step1Fail ⟨none, 0, "OLD"⟩ =
      ⟨.error (), ⟨none, 0, "OLD"⟩, [AcqCall.cookieFetch]⟩ ∧
    getCrumb 0 (AcqOutcome.step2Fail ["B=2"]) ⟨none, 0, "OLD"⟩ =
      ⟨.error (), { (⟨none, 0, "OLD"⟩ : CredState) with cookies := joinCookies ["B=2"] },
       [AcqCall.cookieFetch, AcqCall.tokenFetch]⟩ :=
  getCrumb_failure_effects 0 ⟨none, 0, "OLD"⟩ ["B=2"] (by decide)

/-- Claim C4, counterexample: the freshness gate uses JavaScript truthiness of
`_crumb`, not mere presence.  In the state `⟨some "", 0, "A=1"⟩` the token is
present and `acquiredAt` is within TTL at `now = 5`, yet `getCrumb` still
issues network calls (the empty-string token is falsy). -/
theorem getCrumb_fresh_gate_cex :
    (⟨some "", 0, "A=1"⟩ : CredState).crumb.isSome = true ∧
    5 - (⟨some "", 0, "A=1"⟩ : CredState).crumbTime < CRUMB_TTL ∧
    (getCrumb 5 (AcqOutcome.success ["B=2"] "t2") ⟨some "", 0, "A=1"⟩).calls ≠ [] := by
  refine ⟨rfl, by decide, by decide⟩

/-- Claim C4, amended: for every CredState whose token is present and
non-empty with `now - acquiredAt < TTL`, `getCrumb` issues zero network
calls, returns the cached pair, and leaves the state unmodified. -/
theorem getCrumb_fresh_gate (now t : Nat) (s ck : String) (out : AcqOutcome)
    (hs : s ≠ "") (hfresh : now - t < CRUMB_TTL) :
    getCrumb now out ⟨some s, t, ck⟩ = ⟨.ok (s, ck), ⟨some s, t, ck⟩, []⟩ := by
  have he : s.isEmpty = false := by
    by_contra hne
    exact hs ((String.isEmpty_iff s).mp (by simpa using hne))
  have hf : isFresh now ⟨some s, t, ck⟩ = true := by
    simp [isFresh, jsTruthy, hfresh, he]
  simp [getCrumb, hf]

/-- Witness for `getCrumb_fresh_gate` at `now = 5`, `t = 0`, `s = "abc"`,
`ck = "A=1"`, `out = step1Fail`. -/
theorem getCrumb_fresh_gate_witness :
    getCrumb 5 AcqOutcome.step1Fail ⟨some "abc", 0, "A=1"⟩ =
      ⟨.ok ("abc", "A=1"), ⟨some "abc", 0, "A=1"⟩, []⟩ :=
  getCrumb_fresh_gate 5 0 "abc" "A=1" AcqOutcome.step1Fail (by decide) (by decide)

/-- Claim C5: for every CredState whose token is absent or whose `acquiredAt`
is at least TTL old, `getCrumb` takes the acquisition path: its first network
call is the landing-page GET (never a token fetch against the old cookie
jar), and whenever it returns successfully it has issued both steps, the
landing-page GET then the token GET, in that order. -/
theorem getCrumb_expiry_gate (now : Nat) (out : AcqOutcome) (st : CredState)
    (h : st.crumb = none ∨ CRUMB_TTL ≤ now - st.crumbTime) :
    (getCrumb now out st).calls.take 1 = [AcqCall.cookieFetch] ∧
    (∀ p, (getCrumb now out st).result = .ok p →
      (getCrumb now out st).calls = [AcqCall.cookieFetch, AcqCall.tokenFetch]) := by
  have hf : isFresh now st = false := by
    rcases h with h | h
    · simp [isFresh, h, jsTruthy]
    · simp [isFresh, Nat.not_lt.mpr h]
  cases out <;> simp [getCrumb, hf, doAcquire]

/-- Witness for `getCrumb_expiry_gate` at `now = 0`,
`out = success ["A=1"] "abc123"`, `st = ⟨none, 0, ""⟩`. -/
theorem getCrumb_expiry_gate_witness :
    (getCrumb 0 (AcqOutcome.success ["A=1"] "abc123") ⟨none, 0, ""⟩).calls.take 1 =
      [AcqCall.cookieFetch] ∧
    (∀ p, (getCrumb 0 (AcqOutcome.success ["A=1"] "abc123") ⟨none, 0, ""⟩).result = .ok p →
      (getCrumb 0 (AcqOutcome.success ["A=1"] "abc123") ⟨none, 0, ""⟩).calls =
        [AcqCall.cookieFetch, AcqCall.tokenFetch]) :=
  getCrumb_expiry_gate 0 (AcqOutcome.success ["A=1"] "abc123") ⟨none, 0, ""⟩ (Or.inl rfl)

/-- Claim C6: `invalidate` clears only the token: the cookie header and the
acquisition timestamp are untouched, and the next `getCrumb` call on the
invalidated state takes the acquisition path (the freshness gate fails). -/
theorem invalidate_clears_token_only (st : CredState) (now : Nat) (out : AcqOutcome) :
    (invalidate st).crumb = none ∧
    (invalidate st).cookies = st.cookies ∧
    (invalidate st).crumbTime = st.crumbTime ∧
    getCrumb now out (invalidate st) = doAcquire now out (invalidate st) := by
  refine ⟨rfl, rfl, rfl, ?_⟩
  simp [getCrumb, isFresh, invalidate, jsTruthy]

/-- Claim C8: on a successful acquisition, `getCrumb` returns as cookie
header each Set-Cookie header reduced to the part before its first `;`,
joined with `"; "`, and the raw token-endpoint body as the token; in
particular with Set-Cookie `A=1` and body `"abc123"` it returns the pair
`("abc123", "A=1")`. -/
theorem getCrumb_success_formation (now : Nat) (st : CredState) (raw : List String)
    (body : String) (h : isFresh now st = false) :
    (getCrumb now (AcqOutcome.success raw body) st).result =
      .ok (body, String.intercalate "; " (raw.map cookiePart)) ∧
    cookiePart "A=1; Path=/; HttpOnly" = "A=1" ∧
    getCrumb 0 (AcqOutcome.success ["A=1"] "abc123") ⟨none, 0, ""⟩ =
      ⟨.ok ("abc123", "A=1"), ⟨some "abc123", 0, "A=1"⟩,
       [AcqCall.cookieFetch, AcqCall.tokenFetch]⟩ := by
  refine ⟨?_, by decide, by decide⟩
  simp [getCrumb, h, doAcquire, joinCookies]

/-- Witness for `getCrumb_success_formation` at `now = 7`,
`raw = ["B=2; Path=/", "C=3"]`, `body = "tok"`, `st = ⟨none, 0, "OLD"⟩`. -/
theorem getCrumb_success_formation_witness :
    (getCrumb 7 (AcqOutcome.success ["B=2; Path=/", "C=3"] "tok") ⟨none, 0, "OLD"⟩).result =
      .ok ("tok", String.intercalate "; "
        ((["B=2; Path=/", "C=3"] : List String).map cookiePart)) ∧
    cookiePart "A=1; Path=/; HttpOnly" = "A=1" ∧
    getCrumb 0 (AcqOutcome.success ["A=1"] "abc123") ⟨none, 0, ""⟩ =
      ⟨.ok ("abc123", "A=1"), ⟨some "abc123", 0, "A=1"⟩,
       [AcqCall.cookieFetch, AcqCall.tokenFetch]⟩ :=
  getCrumb_success_formation 7 ⟨none, 0, "OLD"⟩ ["B=2; Path=/", "C=3"] "tok" (by decide)

/-- Claim C2: when the first upstream request of `yfRequest` fails with HTTP
401 or 403, the token is invalidated and credentials re-acquired (the final
state is that of the second `getCrumb` run on the invalidated state), at most
two upstream data requests are ever issued, and when re-acquisition succeeds
the request is retried exactly once on the URL rebuilt with the new token,
with the retry's outcome returned (its body on success, its error
otherwise). -/
theorem yfRequest_auth_retry (env : YfEnv) (url : String) (st : CredState)
    (crumb ck : String)
    (h1 : (getCrumb env.now1 env.acq1 st).result = .ok (crumb, ck))
    (hauth : isAuthStatus env.req1 = true) :
    (yfRequest env url st).state =
      (getCrumb env.now2 env.acq2 (invalidate (getCrumb env.now1 env.acq1 st).state)).state ∧
    (yfRequest env url st).dataRequests.length ≤ 2 ∧
    (∀ c2 k2,
      (getCrumb env.now2 env.acq2 (invalidate (getCrumb env.now1 env.acq1 st).state)).result
        = .ok (c2, k2) →
      (yfRequest env url st).dataRequests =
        [buildUrl url (sepFor url) crumb, buildUrl url (sepFor url) c2] ∧
      (yfRequest env url st).result =
        (match env.req2 with
         | .success b2 => .ok b2
         | r2 => .error (.upstream r2))) := by
  obtain ⟨s, hs⟩ : ∃ s, env.req1 = ReqOutcome.httpError s := by
    cases hr : env.req1
    · rw [hr] at hauth; simp [isAuthStatus] at hauth
    · exact ⟨_, rfl⟩
    · rw [hr] at hauth; simp [isAuthStatus] at hauth
  rw [hs] at hauth
  cases h2 : (getCrumb env.now2 env.acq2 (invalidate (getCrumb env.now1 env.acq1 st).state)).result with
  | error e =>
      refine ⟨?_, ?_, ?_⟩ <;>
        simp [yfRequest, h1, hs, hauth, h2]
  | ok p =>
      obtain ⟨c2, k2⟩ := p
      cases hr2 : env.req2 <;>
        refine ⟨?_, ?_, ?_⟩ <;>
        simp [yfRequest, h1, hs, hauth, h2, hr2]

/-- Witness for `yfRequest_auth_retry`: first acquisition succeeds with token
`"t1"`, the first request is rejected with 401, re-acquisition yields `"t2"`,
and the retry succeeds with body `"ok"`. -/
theorem yfRequest_auth_retry_witness :
    (yfRequest wEnvRetry "https://x/y" ⟨none, 0, ""⟩).state =
      (getCrumb wEnvRetry.now2 wEnvRetry.acq2
        (invalidate (getCrumb wEnvRetry.now1 wEnvRetry.acq1 ⟨none, 0, ""⟩).state)).state ∧
    (yfRequest wEnvRetry "https://x/y" ⟨none, 0, ""⟩).dataRequests.length ≤ 2 ∧
    (∀ c2 k2,
      (getCrumb wEnvRetry.now2 wEnvRetry.acq2
        (invalidate (getCrumb wEnvRetry.now1 wEnvRetry.acq1 ⟨none, 0, ""⟩).state)).result
        = .ok (c2, k2) →
      (yfRequest wEnvRetry "https://x/y" ⟨none, 0, ""⟩).dataRequests =
        [buildUrl "https://x/y" (sepFor "https://x/y") "t1",
         buildUrl "https://x/y" (sepFor "https://x/y") c2] ∧
      (yfRequest wEnvRetry "https://x/y" ⟨none, 0, ""⟩).result =
        (match wEnvRetry.req2 with
         | .success b2 => .ok b2
         | r2 => .error (.upstream r2))) :=
  yfRequest_auth_retry wEnvRetry "https://x/y" ⟨none, 0, ""⟩ "t1" "A=1" (by decide) (by decide)

/-- Claim C3: when the first upstream request of `yfRequest` fails with
anything other than HTTP 401/403 (another HTTP status, or a network error
with no status), the error propagates unchanged, only that one data request
was issued, and the credential state is exactly the state the first
`getCrumb` left (no invalidation, no re-acquisition). -/
theorem yfRequest_no_retry_nonauth (env : YfEnv) (url : String) (st : CredState)
    (crumb ck : String)
    (h1 : (getCrumb env.now1 env.acq1 st).result = .ok (crumb, ck))
    (hfail : ∀ b, env.req1 ≠ ReqOutcome.success b)
    (hna : isAuthStatus env.req1 = false) :
    (yfRequest env url st).result = .error (.upstream env.req1) ∧
    (yfRequest env url st).state = (getCrumb env.now1 env.acq1 st).state ∧
    (yfRequest env url st).dataRequests = [buildUrl url (sepFor url) crumb] := by
  cases hr : env.req1 with
  | success b => exact absurd hr (hfail b)
  | httpError s =>
      rw [hr] at hna
      refine ⟨?_, ?_, ?_⟩ <;> simp [yfRequest, h1, hr, hna]
  | netError =>
      refine ⟨?_, ?_, ?_⟩ <;> simp [yfRequest, h1, hr, isAuthStatus]

/-- Witness for `yfRequest_no_retry_nonauth`: a fresh cached token `"abc"`
and a first request failing with HTTP 500. -/
theorem yfRequest_no_retry_nonauth_witness :
    (yfRequest wEnv500 "https://x/y" ⟨some "abc", 0, "A=1"⟩).result =
      .error (.upstream wEnv500.req1) ∧
    (yfRequest wEnv500 "https://x/y" ⟨some "abc", 0, "A=1"⟩).state =
      (getCrumb wEnv500.now1 wEnv500.acq1 ⟨some "abc", 0, "A=1"⟩).state ∧
    (yfRequest wEnv500 "https://x/y" ⟨some "abc", 0, "A=1"⟩).dataRequests =
      [buildUrl "https://x/y" (sepFor "https://x/y") "abc"] :=
  yfRequest_no_retry_nonauth wEnv500 "https://x/y" ⟨some "abc", 0, "A=1"⟩ "abc" "A=1"
    (by decide) (fun b h => ReqOutcome.noConfusion h) (by decide)

/-- Claim C7: the first upstream URL `yfRequest` requests is the target URL
with the token appended as the `crumb` query parameter, separated by `&` when
the URL already contains `?` and by `?` otherwise; in particular
`forward("https://x/y?range=6mo")` with cached token `"abc123"` requests
exactly `"https://x/y?range=6mo&crumb=abc123"`. -/
theorem yfRequest_url_building (env : YfEnv) (url crumb ck : String) (st : CredState)
    (h1 : (getCrumb env.now1 env.acq1 st).result = .ok (crumb, ck)) :
    (yfRequest env url st).dataRequests.take 1 =
      [url ++ (if url.data.contains '?' then "&" else "?") ++ "crumb=" ++
        encodeURIComponent crumb] ∧
    yfRequest ⟨0, AcqOutcome.step1Fail, ReqOutcome.success "body", 0, AcqOutcome.step1Fail,
        ReqOutcome.success "body"⟩ "https://x/y?range=6mo" ⟨some "abc123", 0, "A=1"⟩ =
      ⟨.ok "body", ⟨some "abc123", 0, "A=1"⟩, ["https://x/y?range=6mo&crumb=abc123"]⟩ := by
  refine ⟨?_, by decide⟩
  cases hr : env.req1 with
  | success b => simp [yfRequest, h1, hr, buildUrl, sepFor]
  | httpError s =>
      cases ha : isAuthStatus (ReqOutcome.httpError s) with
      | false => simp [yfRequest, h1, hr, ha, buildUrl, sepFor]
      | true =>
          cases h2 : (getCrumb env.now2 env.acq2
              (invalidate (getCrumb env.now1 env.acq1 st).state)).result with
          | error e => simp [yfRequest, h1, hr, ha, h2, buildUrl, sepFor]
          | ok p =>
              obtain ⟨c2, k2⟩ := p
              cases hr2 : env.req2 <;>
                simp [yfRequest, h1, hr, ha, h2, hr2, buildUrl, sepFor]
  | netError => simp [yfRequest, h1, hr, isAuthStatus, buildUrl, sepFor]

/-- Witness for `yfRequest_url_building`: a URL with an existing query string
and a cached token `"abc"`. -/
theorem yfRequest_url_building_witness :
    (yfRequest wEnv500 "https://x/y?a=1" ⟨some "abc", 0, "A=1"⟩).dataRequests.take 1 =
      ["https://x/y?a=1" ++ (if ("https://x/y?a=1" : String).data.contains '?' then "&" else "?")
        ++ "crumb=" ++ encodeURIComponent "abc"] ∧
    yfRequest ⟨0, AcqOutcome.step1Fail, ReqOutcome.success "body", 0, AcqOutcome.step1Fail,
        ReqOutcome.success "body"⟩ "https://x/y?range=6mo" ⟨some "abc123", 0, "A=1"⟩ =
      ⟨.ok "body", ⟨some "abc123", 0, "A=1"⟩, ["https://x/y?range=6mo&crumb=abc123"]⟩ :=
  yfRequest_url_building wEnv500 "https://x/y?a=1" "abc" "A=1" ⟨some "abc", 0, "A=1"⟩
    (by decide)

/-- Claim C10: both the first attempt and the auth retry append the token
percent-encoded with `encodeURIComponent`, not verbatim: whenever the first
acquisition yields token `c1`, the first request carries
`encodeURIComponent c1`, and when a 401/403 leads to a retry with new token
`c2`, the retry carries `encodeURIComponent c2`; for tokens containing `&` or
`+` the encoded value differs from the raw token, while for the URL-safe
token `"abc123"` it is identical. -/
theorem yfRequest_percent_encodes (env : YfEnv) (url : String) (st : CredState)
    (c1 ck c2 k2 : String)
    (h1 : (getCrumb env.now1 env.acq1 st).result = .ok (c1, ck))
    (hauth : isAuthStatus env.req1 = true)
    (h2 : (getCrumb env.now2 env.acq2 (invalidate (getCrumb env.now1 env.acq1 st).state)).result
      = .ok (c2, k2)) :
    (yfRequest env url st).dataRequests =
      [url ++ sepFor url ++ "crumb=" ++ encodeURIComponent c1,
       url ++ sepFor url ++ "crumb=" ++ encodeURIComponent c2] ∧
    encodeURIComponent "a&b" = "a%26b" ∧
    encodeURIComponent "a+b" = "a%2Bb" ∧
    encodeURIComponent "abc123" = "abc123" := by
  refine ⟨?_, by decide, by decide, by decide⟩
  obtain ⟨s, hs⟩ : ∃ s, env.req1 = ReqOutcome.httpError s := by
    cases hr : env.req1
    · rw [hr] at hauth; simp [isAuthStatus] at hauth
    · exact ⟨_, rfl⟩
    · rw [hr] at hauth; simp [isAuthStatus] at hauth
  rw [hs] at hauth
  cases hr2 : env.req2 <;>
    simp [yfRequest, h1, hs, hauth, h2, hr2, buildUrl]

/-- Witness for `yfRequest_percent_encodes`: first token `"a&b"`, 403 on the
first request, second token `"a+b"`, retry succeeds. -/
theorem yfRequest_percent_encodes_witness :
    (yfRequest wEnvEnc "https://x/y" ⟨some "a&b", 0, "K=1"⟩).dataRequests =
      ["https://x/y" ++ sepFor "https://x/y" ++ "crumb=" ++ encodeURIComponent "a&b",
       "https://x/y" ++ sepFor "https://x/y" ++ "crumb=" ++ encodeURIComponent "a+b"] ∧
    encodeURIComponent "a&b" = "a%26b" ∧
    encodeURIComponent "a+b" = "a%2Bb" ∧
    encodeURIComponent "abc123" = "abc123" :=
  yfRequest_percent_encodes wEnvEnc "https://x/y" ⟨some "a&b", 0, "K=1"⟩
    "a&b" "K=1" "a+b" "B=2" (by decide) (by decide) (by decide)

/-- The pairing invariant is stable under advancing the clock. -/
theorem invT_mono {t u : Nat} {ts : TState} (h : InvT t ts) (hle : t ≤ u) :
    InvT u ts := by
  intro h1 h2
  exact le_trans (h h1 h2) (Nat.sub_le_sub_right hle _)

/-- The pairing invariant is preserved by one `getCrumbT` step taken at the
current time. -/
theorem invT_step {now : Nat} {out : AcqOutcome} {ts : TState} (h : InvT now ts) :
    InvT now (getCrumbT now out ts).2 := by
  by_cases hf : isFresh now (stripT ts) = true
  · simpa [getCrumbT, hf] using h
  · have hf' : isFresh now (stripT ts) = false := by simpa using hf
    have hstale : jsTruthy ts.crumb = true → CRUMB_TTL ≤ now - ts.crumbTime := by
      intro ht
      simp [isFresh, stripT, ht] at hf'
      omega
    cases out with
    | step1Fail =>
        simp only [getCrumbT, hf']
        intro h1 h2
        exact hstale h1
    | step2Fail raw =>
        simp only [getCrumbT, hf']
        intro h1 h2
        exact hstale h1
    | success raw body =>
        simp only [getCrumbT, hf']
        intro h1 h2
        exact absurd rfl h2

/-- The pairing invariant is preserved by invalidation. -/
theorem invT_inval {t : Nat} {ts : TState} : InvT t (invalT ts) := by
  intro h1
  simp [invalT, jsTruthy] at h1

/-- Under the pairing invariant, a successful `getCrumbT` call returns a pair
whose token cycle and cookie cycle coincide. -/
theorem getCrumbT_ok_pair {now : Nat} {out : AcqOutcome} {ts : TState}
    {p : Nat × Nat} (h : InvT now ts)
    (hr : (getCrumbT now out ts).1 = .ok p) : p.1 = p.2 := by
  by_cases hf : isFresh now (stripT ts) = true
  · have hfr := hf
    simp [isFresh, stripT] at hfr
    simp [getCrumbT, hf] at hr
    by_contra hne
    have hcyc : ts.crumbCycle ≠ ts.cookieCycle := by
      intro he
      exact hne (by rw [← hr]; simpa using he)
    have := h hfr.1 hcyc
    omega
  · have hf' : isFresh now (stripT ts) = false := by simpa using hf
    cases out with
    | step1Fail => simp [getCrumbT, hf'] at hr
    | step2Fail raw => simp [getCrumbT, hf'] at hr
    | success raw body =>
        simp [getCrumbT, hf'] at hr
        rw [← hr]

/-- Claim C9: in every sequential trace of `ensureCredentials` and
`invalidate` operations with non-decreasing clock readings, starting from a
state satisfying the pairing invariant, every successful `ensureCredentials`
call returns a token and a cookie header produced by the same acquisition
cycle; moreover a successful acquisition stores a token cycle equal to the
cookie cycle. -/
theorem acquisition_pairing_invariant (ops : List Op) (t0 : Nat) (ts : TState)
    (hmono : timesMono t0 ops) (hinv : InvT t0 ts) :
    (∀ r ∈ (runTrace ops ts).1, ∀ p : Nat × Nat, r = .ok p → p.1 = p.2) ∧
    (∀ now raw body u, isFresh now (stripT u) = false →
      (getCrumbT now (AcqOutcome.success raw body) u).2.crumbCycle =
        (getCrumbT now (AcqOutcome.success raw body) u).2.cookieCycle) := by
  constructor
  · induction ops generalizing t0 ts with
    | nil =>
        intro r hr
        simp [runTrace] at hr
    | cons op rest ih =>
        cases op with
        | ensure now out =>
            intro r hr p hp
            have hmono' : t0 ≤ now ∧ timesMono now rest := hmono
            have hinv' : InvT now ts := invT_mono hinv hmono'.1
            simp only [runTrace] at hr
            rcases List.mem_cons.mp hr with hr | hr
            · exact getCrumbT_ok_pair hinv' (by rw [← hr, hp])
            · exact ih now _ hmono'.2 (invT_step hinv') r hr p hp
        | inval =>
            intro r hr p hp
            simp only [runTrace] at hr
            exact ih t0 _ hmono invT_inval r hr p hp
  · intro now raw body u hu
    simp [getCrumbT, hu]

/-- Witness for `acquisition_pairing_invariant` on a concrete trace: a
successful acquisition, an invalidation, a failed acquisition that overwrites
only the cookies, and a second successful acquisition, from the initial
state. -/
theorem acquisition_pairing_invariant_witness :
    (∀ r ∈ (runTrace [Op.ensure 0 (AcqOutcome.success ["A=1"] "t1"), Op.inval,
        Op.ensure 1 (AcqOutcome.step2Fail ["B=2"]),
        Op.ensure 2 (AcqOutcome.success ["C=3"] "t3")] initT).1,
      ∀ p : Nat × Nat, r = .ok p → p.1 = p.2) ∧
    (∀ now raw body u, isFresh now (stripT u) = false →
      (getCrumbT now (AcqOutcome.success raw body) u).2.crumbCycle =
        (getCrumbT now (AcqOutcome.success raw body) u).2.cookieCycle) :=
  acquisition_pairing_invariant
    [Op.ensure 0 (AcqOutcome.success ["A=1"] "t1"), Op.inval,
     Op.ensure 1 (AcqOutcome.step2Fail ["B=2"]),
     Op.ensure 2 (AcqOutcome.success ["C=3"] "t3")] 0 initT
    ⟨by decide, by decide, by decide, trivial⟩
    (fun h1 => by simp [initT, jsTruthy] at h1)
